import Mathlib

/-!
Verification of the fare/availability re-check core of an airline
check-in helper (the `FareChecker` and `PassengerChecker` modules and the
`make_request` transport helper).

The Python code is shallowly embedded: every remote response that a
function reads is passed to the embedded function as explicit data, pure
computations become Lean functions, and Python's runtime failures
(`KeyError`, `IndexError`, `AttributeError`, `TypeError`, `NameError`,
the custom `RequestError`) become an explicit error type threaded
through `Except`.  Notifications sent to the external notification
handler are collected in a list, so "invokes the notifier exactly once"
is "the notification list is a singleton".
-/

namespace SWCheck

/-- Python runtime errors and the repository's custom request error,
as an explicit error type for the embedding. -/
inductive PyError where
  | keyError (msg : String)
  | indexError (msg : String)
  | attributeError (msg : String)
  | typeError (msg : String)
  | nameError (msg : String)
  | requestError (msg : String)
  deriving Repr, DecidableEq

/-- Calls made on the external notification handler
(`notification_handler.lower_fare` / `notification_handler.flight_unavailable`). -/
inductive Notification where
  | lowerFare (priceInfo : String)
  | flightUnavailable
  deriving Repr, DecidableEq

/-- Python dict access `d[k]`: the value when the key is present,
`KeyError` otherwise.  Dicts are embedded as association lists. -/
def dictGet {α : Type} (d : List (String × α)) (k : String) : Except PyError α :=
  match d.find? (fun p => p.1 == k) with
  | some p => .ok p.2
  | none => .error (.keyError k)

/-! ## `utils.make_request` -/

/-- One HTTP response as `make_request` observes it: `status_code`,
`reason`, and the parsed JSON body (opaque to this layer, kept as a string). -/
structure Response where
  status_code : Nat
  reason : String
  json : String
  deriving Repr, DecidableEq

/-- Outcome of `make_request` together with how many attempts were made and
how many fixed 0.5 s sleeps were performed (the code sleeps after every
non-200 response, the last one included). -/
structure ReqTrace where
  result : Except PyError String
  attempts_made : Nat
  sleeps : Nat
  deriving Repr

/-- The `while attempts <= max_attempts` loop of `make_request`.
`responses attempt` is the response the network returns to the request made
on attempt number `attempt` (attempts are numbered from 1, as in the code);
`remaining` is `max_attempts - attempts + 1`, the number of loop iterations
still allowed.  With `remaining = 0` the loop body never ran and the final
`response.reason` read raises `NameError` (`response` was never bound). -/
def makeRequestGo (responses : Nat → Response) : Nat → Nat → ReqTrace
  | 0, _ => ⟨.error (.nameError "response"), 0, 0⟩
  | 1, attempt =>
    let resp := responses attempt
    if resp.status_code == 200 then
      ⟨.ok resp.json, 1, 0⟩
    else
      ⟨.error (.requestError (resp.reason ++ " " ++ toString resp.status_code)), 1, 1⟩
  | r + 2, attempt =>
    let resp := responses attempt
    if resp.status_code == 200 then
      ⟨.ok resp.json, 1, 0⟩
    else
      let t := makeRequestGo responses (r + 1) (attempt + 1)
      ⟨t.result, t.attempts_made + 1, t.sleeps + 1⟩

/-- `utils.make_request`: try up to `max_attempts` times, returning the
parsed JSON body of the first 200 response, sleeping a fixed 0.5 s after
each non-200 response, and raising `RequestError(reason + " " + status)`
built from the last response once attempts are exhausted. -/
def make_request (responses : Nat → Response) (max_attempts : Nat) : ReqTrace :=
  makeRequestGo responses max_attempts 1

/-! ## `FareChecker` -/

/-- A fare delta / flight price as read by `check_flight_price`:
the `sign` key may be absent (Python `dict.get("sign", "")`), `amount`
and `currencyCode` are accessed unconditionally. -/
structure FarePrice where
  sign : Option String
  amount : String
  currencyCode : String
  deriving Repr, DecidableEq

/-- One entry of a card's `fares` list: its `_meta.fareProductId` and its
`priceDifference` payload. -/
structure Fare where
  fareProductId : String
  priceDifference : FarePrice
  deriving Repr, DecidableEq

/-- One shopping-result flight card of the price-check flow:
a `departureTime` and a `fares` list. -/
structure Card where
  departureTime : String
  fares : List Fare
  deriving Repr, DecidableEq

/-- `FareChecker._get_matching_fare`: scan `fares` for the first entry whose
`_meta.fareProductId` equals `fare_type` and return its `priceDifference`;
raise `KeyError("No fare type found matching {fare_type}")` when none matches. -/
def get_matching_fare (fares : List Fare) (fare_type : String) : Except PyError FarePrice :=
  match fares.find? (fun fare => fare.fareProductId == fare_type) with
  | some fare => .ok fare.priceDifference
  | none => .error (.keyError ("No fare type found matching " ++ fare_type))

/-- `FareChecker._get_flight_price`, after `_get_matching_flights` produced
the card list `flights` and the fare type: scan the cards for the first
whose `departureTime` equals the booked flight's `local_departure_time`
and delegate to `_get_matching_fare`; fall off the end (Python implicit
`None`) when no card matches. -/
def get_flight_price (flights : List Card) (fare_type : String)
    (local_departure_time : String) : Except PyError (Option FarePrice) :=
  match flights.find? (fun new_flight => new_flight.departureTime == local_departure_time) with
  | some new_flight => (get_matching_fare new_flight.fares fare_type).map some
  | none => .ok none

/-- The body of `FareChecker.check_flight_price` after the
`_get_flight_price` call: read `sign` with default `""`, format
`f"{sign}{amount} {currencyCode}"`, and notify `lower_fare` exactly when
the sign is `"-"`.  When `_get_flight_price` fell through with `None`,
`flight_price.get("sign", "")` raises `AttributeError`. -/
def check_flight_price_with (flight_price : Option FarePrice) :
    Except PyError (List Notification) :=
  match flight_price with
  | none => .error (.attributeError "NoneType object has no attribute get")
  | some fp =>
    let sign := fp.sign.getD ""
    let price_info := sign ++ fp.amount ++ " " ++ fp.currencyCode
    if sign == "-" then .ok [.lowerFare price_info] else .ok []

/-- `FareChecker.check_flight_price`, with the shopping response already
reduced (by `_get_matching_flights`) to the card list and fare type:
compute `_get_flight_price` and run the sign decision on its result. -/
def check_flight_price (flights : List Card) (fare_type : String)
    (local_departure_time : String) : Except PyError (List Notification) :=
  (get_flight_price flights fare_type local_departure_time).bind check_flight_price_with

/-- One entry of `changeFlightPage.boundSelections`. -/
structure BoundSelection where
  originalDate : String
  toAirportCode : String
  fromAirportCode : String
  timeDeparts : String
  deriving Repr, DecidableEq

/-- One entry of `changeFlightPage._links.changeShopping.body`. -/
structure BoundReference where
  boundReference : String
  deriving Repr, DecidableEq

/-- One entry of the search query built by `_get_search_query`. -/
structure SearchTerm where
  boundReference : String
  date : String
  destinationAirport : String
  originAirport : String
  isChangeBound : Bool
  deriving Repr, DecidableEq

/-- The dict literal built for one bound inside `_get_search_query`'s loop:
`isChangeBound` is `bound["timeDeparts"] == flight.local_departure_time`. -/
def mkSearchTerm (ref : BoundReference) (bound : BoundSelection)
    (local_departure_time : String) : SearchTerm :=
  { boundReference := ref.boundReference
    date := bound.originalDate
    destinationAirport := bound.toAirportCode
    originAirport := bound.fromAirportCode
    isChangeBound := bound.timeDeparts == local_departure_time }

/-- The loop of `_get_search_query`: for `idx, bound` over `boundSelections`,
append the search term built from `bound_references[idx]` and `bound`.
Indexing `bound_references[idx]` past the end raises `IndexError`. -/
def buildSearchTerms (bound_references : List BoundReference)
    (local_departure_time : String) :
    List BoundSelection → Nat → Except PyError (List SearchTerm)
  | [], _ => .ok []
  | bound :: rest, idx =>
    match bound_references.get? idx with
    | none => .error (.indexError "list index out of range")
    | some ref =>
      (buildSearchTerms bound_references local_departure_time rest (idx + 1)).map
        (fun ts => mkSearchTerm ref bound local_departure_time :: ts)

/-- `FareChecker._get_search_query`: build one search term per bound
selection, then `dict(zip(["outbound", "inbound"], search_terms))` —
`zip` truncates to the shorter list, so at most two entries survive. -/
def get_search_query (bound_references : List BoundReference)
    (bound_selections : List BoundSelection) (local_departure_time : String) :
    Except PyError (List (String × SearchTerm)) :=
  (buildSearchTerms bound_references local_departure_time bound_selections 0).map
    (fun search_terms => List.zip ["outbound", "inbound"] search_terms)

/-- One entry of `viewReservationViewPage.bounds`, reduced to the field the
code reads: `fareProductDetails.fareProductId`. -/
structure FareBound where
  fareProductId : String
  deriving Repr, DecidableEq

/-- The pure core of `FareChecker._get_matching_flights`, with the shopping
response's `changeShoppingPage.flights` dict passed in as `pages`:
pick `outboundPage` and fare-product index 0 when
`query["outbound"]["isChangeBound"]` is true, otherwise `inboundPage` and
index 1; return that page's `cards` together with the fare product id. -/
def get_matching_flights (query : List (String × SearchTerm))
    (fare_type_bounds : List FareBound) (pages : List (String × List Card)) :
    Except PyError (List Card × String) :=
  (dictGet query "outbound").bind fun outbound =>
    let bound_page := if outbound.isChangeBound then "outboundPage" else "inboundPage"
    let bound := if bound_page == "outboundPage" then 0 else 1
    match fare_type_bounds.get? bound with
    | none => .error (.indexError "list index out of range")
    | some fare_bound =>
      (dictGet pages bound_page).map
        (fun cards => (cards, fare_bound.fareProductId))

/-- Python substring containment `pat in s` on character lists: `pat` is a
prefix of some suffix of `s`. -/
def hasSubstring (pat : List Char) : List Char → Bool
  | [] => pat.isPrefixOf []
  | c :: rest => pat.isPrefixOf (c :: rest) || hasSubstring pat rest

/-- The href fix in `FareChecker._get_change_flight_page`: when the change
link's href contains `"/v1/"`, drop its first character (`href[1:]`),
otherwise leave it unchanged. -/
def fix_change_link_href (href : String) : String :=
  if hasSubstring ("/v1/".toList) href.toList then String.mk (href.toList.drop 1) else href

/-! ## `PassengerChecker` -/

/-- One availability-flow flight card: a `departureTime` and the
`startingFromPrice` field, which may be absent (outer `none`), present but
null (`some none`), or present with a price (`some (some v)`). -/
structure AvailCard where
  departureTime : String
  startingFromPrice : Option (Option String)
  deriving Repr, DecidableEq

/-- `PassengerChecker._find_matching_flight`: return the first available
flight whose `departureTime` equals the booked flight's
`local_departure_time`; fall off the end (Python implicit `None`) otherwise. -/
def find_matching_flight (flights_available : List AvailCard)
    (local_departure_time : String) : Option AvailCard :=
  flights_available.find?
    (fun available_flight => available_flight.departureTime == local_departure_time)

/-- `PassengerChecker.check_passenger_availability`, with the shopping
response already reduced to the outbound card list: subscripting the
`None` returned by a failed `_find_matching_flight` raises `TypeError`;
`matching_flight["startingFromPrice"]` raises `KeyError` when the key is
absent; a present-but-null price sends `flight_unavailable`, and a
present non-null price sends nothing. -/
def check_passenger_availability (flights_available : List AvailCard)
    (local_departure_time : String) : Except PyError (List Notification) :=
  match find_matching_flight flights_available local_departure_time with
  | none => .error (.typeError "NoneType object is not subscriptable")
  | some matching_flight =>
    match matching_flight.startingFromPrice with
    | none => .error (.keyError "startingFromPrice")
    | some none => .ok [.flightUnavailable]
    | some (some _) => .ok []

/-! ## Claim theorems -/

/-- Claim C1: for every flight price result whose sign is `"-"`,
`check_flight_price` invokes the lower-fare notifier exactly once with the
price string formatted as `{sign}{amount} {currencyCode}`; for every result
whose sign is `"+"` or absent (absent renders as the empty string), no
notification is sent. -/
theorem claim1_lower_fare_decision (fp : FarePrice) :
    (fp.sign = some "-" →
      check_flight_price_with (some fp) =
        .ok [.lowerFare ("-" ++ fp.amount ++ " " ++ fp.currencyCode)])
    ∧ (fp.sign = some "+" → check_flight_price_with (some fp) = .ok [])
    ∧ (fp.sign = none → check_flight_price_with (some fp) = .ok []) := by
  refine ⟨fun h => ?_, fun h => ?_, fun h => ?_⟩ <;>
    simp [check_flight_price_with, h]

/-- Witness for C1: a concrete `-10 USD` fare delta produces exactly one
lower-fare notification with the formatted price string. -/
theorem claim1_lower_fare_decision_witness :
    check_flight_price_with (some ⟨some "-", "10", "USD"⟩) =
      .ok [.lowerFare "-10 USD"] := by
  have h := (claim1_lower_fare_decision ⟨some "-", "10", "USD"⟩).1 rfl
  simpa using h

/-- Claim C4 (code bug): the spec says that when no card's `departureTime`
matches the booked flight's local departure time, `check_flight_price`
completes benignly with no price, no notification and no error.  In the
code `_get_flight_price` does fall through silently with `None`, but
`check_flight_price` then calls `.get` on that `None`, raising
`AttributeError` instead of completing. -/
theorem claim4_no_matching_flight_crashes :
    get_flight_price [⟨"10:30", []⟩, ⟨"11:30", []⟩] "fare-A" "12:00" = .ok none
    ∧ check_flight_price [⟨"10:30", []⟩, ⟨"11:30", []⟩] "fare-A" "12:00"
        = .error (.attributeError "NoneType object has no attribute get") :=
  ⟨rfl, rfl⟩

/-- Counterexample for C5: a matched availability card whose
`startingFromPrice` key is absent makes `check_passenger_availability`
raise `KeyError` — the flight-unavailable notifier is not invoked, contrary
to the claim's "absent or null" condition. -/
theorem claim5_absent_price_counterexample :
    check_passenger_availability [⟨"12:00", none⟩] "12:00"
        = .error (.keyError "startingFromPrice")
    ∧ check_passenger_availability [⟨"12:00", none⟩] "12:00"
        ≠ .ok [.flightUnavailable] := by
  have h1 : check_passenger_availability [⟨"12:00", none⟩] "12:00"
      = .error (.keyError "startingFromPrice") := rfl
  refine ⟨h1, ?_⟩
  rw [h1]
  intro h
  exact Except.noConfusion h

/-- Claim C5 (amended): for every matched availability card,
`check_passenger_availability` invokes the flight-unavailable notifier
exactly once iff the card's `startingFromPrice` field is present and null;
a present non-null price sends nothing, and an absent field raises
`KeyError` rather than notifying. -/
theorem claim5_availability_decision (flights_available : List AvailCard)
    (dep : String) (card : AvailCard)
    (h : find_matching_flight flights_available dep = some card) :
    (card.startingFromPrice = some none →
      check_passenger_availability flights_available dep = .ok [.flightUnavailable])
    ∧ (∀ v, card.startingFromPrice = some (some v) →
      check_passenger_availability flights_available dep = .ok [])
    ∧ (card.startingFromPrice = none →
      check_passenger_availability flights_available dep
        = .error (.keyError "startingFromPrice")) := by
  refine ⟨fun hp => ?_, fun v hp => ?_, fun hp => ?_⟩ <;>
    simp [check_passenger_availability, h, hp]

/-- Witness for C5's amended theorem: a concrete matched card with a
present-but-null `startingFromPrice` triggers exactly one
flight-unavailable notification. -/
theorem claim5_availability_decision_witness :
    check_passenger_availability [⟨"12:00", some none⟩] "12:00"
      = .ok [.flightUnavailable] :=
  (claim5_availability_decision [⟨"12:00", some none⟩] "12:00"
    ⟨"12:00", some none⟩ rfl).1 rfl

/-- Claim C6: when no fare in the list carries the expected fare-product id,
`_get_matching_fare` raises the dedicated `KeyError("No fare type found
matching ...")` — an error, hence distinguishable from the missing-flight
outcome, which is a silent `None` result; when a matching fare exists
(the first match), its `priceDifference` is returned and nothing is raised. -/
theorem claim6_fare_matching (fares : List Fare) (fare_type : String) :
    ((∀ fare ∈ fares, fare.fareProductId ≠ fare_type) →
      get_matching_fare fares fare_type
        = .error (.keyError ("No fare type found matching " ++ fare_type)))
    ∧ (∀ fare, fares.find? (fun f => f.fareProductId == fare_type) = some fare →
      get_matching_fare fares fare_type = .ok fare.priceDifference) := by
  constructor
  · intro hnone
    have hfind : fares.find? (fun f => f.fareProductId == fare_type) = none := by
      rw [List.find?_eq_none]
      intro f hf
      simpa using hnone f hf
    simp [get_matching_fare, hfind]
  · intro fare hfind
    simp [get_matching_fare, hfind]

/-- Witness for C6: a concrete fare list with no entry for the expected
fare-product id produces the dedicated lookup error. -/
theorem claim6_fare_matching_witness :
    get_matching_fare [⟨"fare-B", ⟨none, "5", "USD"⟩⟩] "fare-A"
      = .error (.keyError ("No fare type found matching " ++ "fare-A")) :=
  (claim6_fare_matching [⟨"fare-B", ⟨none, "5", "USD"⟩⟩] "fare-A").1 (by decide)

/-- Claim C7: when no availability card's `departureTime` matches the booked
flight's local departure time, `_find_matching_flight` falls through with
`None` and `check_passenger_availability` raises `TypeError` by
subscripting it — an error is surfaced rather than the check completing
silently (unlike the price flow's silent `None` fall-through). -/
theorem claim7_availability_no_match_raises (flights_available : List AvailCard)
    (dep : String) (h : ∀ c ∈ flights_available, c.departureTime ≠ dep) :
    find_matching_flight flights_available dep = none
    ∧ check_passenger_availability flights_available dep
        = .error (.typeError "NoneType object is not subscriptable") := by
  have hf : find_matching_flight flights_available dep = none := by
    rw [find_matching_flight, List.find?_eq_none]
    intro c hc
    simpa using h c hc
  exact ⟨hf, by simp [check_passenger_availability, hf]⟩

/-- Witness for C7: a concrete card list with no matching departure time
makes the availability check raise rather than complete. -/
theorem claim7_availability_no_match_raises_witness :
    check_passenger_availability [⟨"10:30", some none⟩] "12:00"
      = .error (.typeError "NoneType object is not subscriptable") :=
  (claim7_availability_no_match_raises [⟨"10:30", some none⟩] "12:00" (by decide)).2

/-- Claim C8: `_get_change_flight_page` strips exactly one leading character
from the change link's href exactly when the quirk pattern is detected
(the href contains `"/v1/"`, the code's detection of the spurious extra
path separator before the version segment), and leaves the href unchanged
otherwise.  Stripping exactly one leading character is witnessed by the
result being the tail of the href: one shorter, and restored by
re-attaching the first character. -/
theorem claim8_href_fix (href : String) :
    (hasSubstring ("/v1/".toList) href.toList = true →
      (fix_change_link_href href).toList = href.toList.drop 1
      ∧ (fix_change_link_href href).toList.length = href.toList.length - 1
      ∧ href.toList.take 1 ++ (fix_change_link_href href).toList = href.toList)
    ∧ (hasSubstring ("/v1/".toList) href.toList = false →
      fix_change_link_href href = href) := by
  have hunf : fix_change_link_href href =
      if hasSubstring ("/v1/".toList) href.toList then
        String.mk (href.toList.drop 1)
      else href := rfl
  constructor
  · intro hdet
    have hfix : (fix_change_link_href href).toList = href.toList.drop 1 := by
      rw [hunf, if_pos hdet]
      rfl
    refine ⟨hfix, ?_, ?_⟩
    · rw [hfix, List.length_drop]
    · rw [hfix, List.take_append_drop]
  · intro hdet
    rw [hunf, hdet]
    simp

/-- Witness for C8: a concrete href with the doubled separator before the
version segment is stripped to its tail; re-attaching its first character
restores it. -/
theorem claim8_href_fix_witness :
    (fix_change_link_href "//v1/change").toList = ("//v1/change").toList.drop 1
    ∧ ("//v1/change").toList.take 1 ++ (fix_change_link_href "//v1/change").toList
        = ("//v1/change").toList := by
  have h := (claim8_href_fix "//v1/change").1 (by decide)
  exact ⟨h.1, h.2.2⟩

/-- Claim C2: `_get_search_query` produces exactly the key `"outbound"` for a
single-bound (one-way) change-flight page, and exactly the keys
`"outbound"` then `"inbound"` in bound-list order for a two-bound
(round-trip) page; every entry's `isChangeBound` is true exactly when that
bound's scheduled departure time (`timeDeparts`) equals the booked
flight's local departure time. -/
theorem claim2_search_query_shape (r0 r1 : BoundReference) (rs : List BoundReference)
    (b0 b1 : BoundSelection) (dep : String) :
    get_search_query (r0 :: rs) [b0] dep = .ok [("outbound", mkSearchTerm r0 b0 dep)]
    ∧ get_search_query (r0 :: r1 :: rs) [b0, b1] dep
        = .ok [("outbound", mkSearchTerm r0 b0 dep), ("inbound", mkSearchTerm r1 b1 dep)]
    ∧ (∀ r b, (mkSearchTerm r b dep).isChangeBound = true ↔ b.timeDeparts = dep) := by
  refine ⟨rfl, rfl, fun r b => ?_⟩
  simp [mkSearchTerm]

/-- Claim C3: `_get_matching_flights` selects the outbound-page card list and
fare-product index 0 when the query's `"outbound"` entry has
`isChangeBound = true`, and otherwise the inbound-page card list and
fare-product index 1. -/
theorem claim3_bound_page_resolution (query : List (String × SearchTerm))
    (outbound : SearchTerm) (fare_type_bounds : List FareBound) (fb : FareBound)
    (pages : List (String × List Card)) (cards : List Card)
    (hq : dictGet query "outbound" = .ok outbound) :
    (outbound.isChangeBound = true → fare_type_bounds[0]? = some fb →
      dictGet pages "outboundPage" = .ok cards →
      get_matching_flights query fare_type_bounds pages = .ok (cards, fb.fareProductId))
    ∧ (outbound.isChangeBound = false → fare_type_bounds[1]? = some fb →
      dictGet pages "inboundPage" = .ok cards →
      get_matching_flights query fare_type_bounds pages = .ok (cards, fb.fareProductId)) := by
  constructor <;> intro h1 h2 h3 <;>
    simp [get_matching_flights, hq, h1, h2, h3, Except.bind, Except.map]

/-- Witness for C3: a concrete query whose outbound entry is the change bound
selects the outbound cards and the fare product at index 0. -/
theorem claim3_bound_page_resolution_witness :
    get_matching_flights [("outbound", ⟨"ref-1", "1/1", "LAX", "MIA", true⟩)]
        [⟨"WGA"⟩, ⟨"BUS"⟩] [("outboundPage", [⟨"10:30", []⟩])]
      = .ok ([⟨"10:30", []⟩], "WGA") :=
  (claim3_bound_page_resolution [("outbound", ⟨"ref-1", "1/1", "LAX", "MIA", true⟩)]
    ⟨"ref-1", "1/1", "LAX", "MIA", true⟩ [⟨"WGA"⟩, ⟨"BUS"⟩] ⟨"WGA"⟩
    [("outboundPage", [⟨"10:30", []⟩])] [⟨"10:30", []⟩] rfl).1 rfl rfl rfl

/-- Helper for C9: when every response offered to the remaining iterations is
non-200, the loop exhausts them all, sleeps after each one, and raises the
request error built from the last response. -/
theorem makeRequestGo_all_fail (responses : Nat → Response) :
    ∀ (r a : Nat), 1 ≤ r →
    (∀ i, a ≤ i → i < a + r → (responses i).status_code ≠ 200) →
    makeRequestGo responses r a =
      ⟨.error (.requestError ((responses (a + r - 1)).reason ++ " "
          ++ toString (responses (a + r - 1)).status_code)), r, r⟩
  | 0, _, h, _ => absurd h (by omega)
  | 1, a, _, hfail => by
    have hne : ((responses a).status_code == 200) = false := by
      simpa using hfail a (le_refl a) (by omega)
    simp only [makeRequestGo, hne, Bool.false_eq_true, if_false]
    have ha : a + 1 - 1 = a := by omega
    rw [ha]
  | r + 2, a, _, hfail => by
    have hne : ((responses a).status_code == 200) = false := by
      simpa using hfail a (le_refl a) (by omega)
    have ih := makeRequestGo_all_fail responses (r + 1) (a + 1) (by omega)
      (fun i h1 h2 => hfail i (by omega) (by omega))
    simp only [makeRequestGo, hne, Bool.false_eq_true, if_false, ih]
    have harith : a + 1 + (r + 1) - 1 = a + (r + 2) - 1 := by omega
    rw [harith]

/-- Helper for C9: when attempt `k` is the first one within the remaining
iterations to get a 200 response, the loop stops there and returns that
response's JSON body, having slept once per failed attempt before it. -/
theorem makeRequestGo_success (responses : Nat → Response) :
    ∀ (r a k : Nat), a ≤ k → k < a + r →
    (∀ i, a ≤ i → i < k → (responses i).status_code ≠ 200) →
    (responses k).status_code = 200 →
    makeRequestGo responses r a = ⟨.ok (responses k).json, k - a + 1, k - a⟩
  | 0, a, k, h1, h2, _, _ => absurd h2 (by omega)
  | 1, a, k, h1, h2, _, hk => by
    have hak : k = a := by omega
    subst hak
    have hok : ((responses k).status_code == 200) = true := by simpa using hk
    simp only [makeRequestGo, hok, if_true, Nat.sub_self]
  | r + 2, a, k, h1, h2, hfail, hk => by
    by_cases hka : k = a
    · subst hka
      have hok : ((responses k).status_code == 200) = true := by simpa using hk
      simp only [makeRequestGo, hok, if_true, Nat.sub_self]
    · have ha : (responses a).status_code ≠ 200 := hfail a (le_refl a) (by omega)
      have hne : ((responses a).status_code == 200) = false := by simpa using ha
      have ih := makeRequestGo_success responses (r + 1) (a + 1) k (by omega) (by omega)
        (fun i hi1 hi2 => hfail i (by omega) hi2) hk
      simp only [makeRequestGo, hne, Bool.false_eq_true, if_false, ih]
      have e1 : k - (a + 1) + 1 + 1 = k - a + 1 := by omega
      have e2 : k - (a + 1) + 1 = k - a := by omega
      rw [e1, e2]

/-- Claim C9: when every attempt's response is non-200, `make_request` makes
exactly `max_attempts` attempts, sleeps the fixed delay after each, and
fails with a request error carrying the last response's HTTP reason phrase
and status code; when attempt `k` is the first to return status 200, it
returns that response's parsed JSON body immediately, after exactly `k`
attempts. -/
theorem claim9_make_request_retries (responses : Nat → Response)
    (max_attempts k : Nat) :
    (1 ≤ max_attempts →
      (∀ i, 1 ≤ i → i ≤ max_attempts → (responses i).status_code ≠ 200) →
      make_request responses max_attempts =
        ⟨.error (.requestError ((responses max_attempts).reason ++ " "
            ++ toString (responses max_attempts).status_code)),
          max_attempts, max_attempts⟩)
    ∧ (1 ≤ k → k ≤ max_attempts →
      (∀ i, 1 ≤ i → i < k → (responses i).status_code ≠ 200) →
      (responses k).status_code = 200 →
      make_request responses max_attempts = ⟨.ok (responses k).json, k, k - 1⟩) := by
  constructor
  · intro h1 hfail
    have h := makeRequestGo_all_fail responses max_attempts 1 h1
      (fun i hi1 hi2 => hfail i hi1 (by omega))
    have e : 1 + max_attempts - 1 = max_attempts := by omega
    rw [e] at h
    exact h
  · intro hk1 hk2 hfail hk
    have h := makeRequestGo_success responses max_attempts 1 k hk1 (by omega)
      (fun i hi1 hi2 => hfail i hi1 hi2) hk
    have e1 : k - 1 + 1 = k := by omega
    rw [e1] at h
    exact h

/-- Witness for C9: two 404 responses exhaust a two-attempt budget and
produce the request error "Not Found 404". -/
theorem claim9_make_request_retries_witness :
    make_request (fun _ => ⟨404, "Not Found", "body"⟩) 2
      = ⟨.error (.requestError ("Not Found" ++ " " ++ toString (404 : Nat))), 2, 2⟩ :=
  (claim9_make_request_retries (fun _ => ⟨404, "Not Found", "body"⟩) 2 1).1
    (by omega) (fun i _ _ => by decide)

/-- Helper for C10: a successful search-term construction commutes with
truncating the bound-selection list — the first `n` terms are exactly the
terms built from the first `n` bounds. -/
theorem buildSearchTerms_take (refs : List BoundReference) (dep : String) :
    ∀ (sels : List BoundSelection) (idx n : Nat) (ts : List SearchTerm),
    buildSearchTerms refs dep sels idx = .ok ts →
    buildSearchTerms refs dep (sels.take n) idx = .ok (ts.take n)
  | [], idx, n, ts, h => by
    simp only [buildSearchTerms] at h
    injection h with h
    subst h
    simp [buildSearchTerms]
  | b :: rest, idx, 0, ts, h => by
    simp [buildSearchTerms]
  | b :: rest, idx, n + 1, ts, h => by
    simp only [buildSearchTerms] at h
    cases hr : refs.get? idx with
    | none => rw [hr] at h; exact absurd h (by simp)
    | some ref =>
      rw [hr] at h
      cases hb : buildSearchTerms refs dep rest (idx + 1) with
      | error e => rw [hb] at h; exact absurd h (by simp [Except.map])
      | ok ts2 =>
        rw [hb] at h
        simp only [Except.map] at h
        injection h with h
        subst h
        have ih := buildSearchTerms_take refs dep rest (idx + 1) n ts2 hb
        simp only [List.take_succ_cons, buildSearchTerms, hr, ih, Except.map]

/-- Claim C10: every query `_get_search_query` successfully produces has at
most two entries, never contains the key `"inbound"` without `"outbound"`,
and is unchanged when every bound selection beyond the first two is
dropped — bounds past the second are silently discarded by the
`zip` with the two-element key list. -/
theorem claim10_search_query_invariant (refs : List BoundReference)
    (sels : List BoundSelection) (dep : String) (q : List (String × SearchTerm))
    (h : get_search_query refs sels dep = .ok q) :
    q.length ≤ 2
    ∧ ("inbound" ∈ q.map Prod.fst → "outbound" ∈ q.map Prod.fst)
    ∧ get_search_query refs (sels.take 2) dep = .ok q := by
  have hq := h
  simp only [get_search_query] at hq
  cases hb : buildSearchTerms refs dep sels 0 with
  | error e => rw [hb] at hq; exact absurd hq (by simp [Except.map])
  | ok ts =>
    rw [hb] at hq
    simp only [Except.map] at hq
    injection hq with hq
    subst hq
    refine ⟨?_, ?_, ?_⟩
    · simp only [List.length_zip, List.length_cons, List.length_nil]
      omega
    · cases ts with
      | nil => simp
      | cons t0 ts1 =>
        cases ts1 with
        | nil => intro hmem; simp at hmem
        | cons t1 ts2 => intro hmem; simp
    · have hb2 := buildSearchTerms_take refs dep sels 0 2 ts hb
      simp only [get_search_query, hb2, Except.map]
      congr 1
      match ts with
      | [] => rfl
      | [t] => rfl
      | t0 :: t1 :: rest => rfl

/-- Witness for C10: a three-bound page yields the same two-entry query as
its first two bounds alone. -/
theorem claim10_search_query_invariant_witness :
    get_search_query [⟨"ref-1"⟩, ⟨"ref-2"⟩, ⟨"ref-3"⟩]
        ([⟨"1/1", "LAX", "MIA", "12:00"⟩, ⟨"1/2", "MIA", "LAX", "1:00"⟩,
          ⟨"1/3", "SFO", "LAX", "2:00"⟩].take 2) "12:00"
      = .ok [("outbound", mkSearchTerm ⟨"ref-1"⟩ ⟨"1/1", "LAX", "MIA", "12:00"⟩ "12:00"),
             ("inbound", mkSearchTerm ⟨"ref-2"⟩ ⟨"1/2", "MIA", "LAX", "1:00"⟩ "12:00")] :=
  (claim10_search_query_invariant [⟨"ref-1"⟩, ⟨"ref-2"⟩, ⟨"ref-3"⟩]
    [⟨"1/1", "LAX", "MIA", "12:00"⟩, ⟨"1/2", "MIA", "LAX", "1:00"⟩,
     ⟨"1/3", "SFO", "LAX", "2:00"⟩] "12:00"
    [("outbound", mkSearchTerm ⟨"ref-1"⟩ ⟨"1/1", "LAX", "MIA", "12:00"⟩ "12:00"),
     ("inbound", mkSearchTerm ⟨"ref-2"⟩ ⟨"1/2", "MIA", "LAX", "1:00"⟩ "12:00")] rfl).2.2

end SWCheck
